import Mathlib

/-!
Shallow embedding of `src/crashtest.c` (a fault-injection kernel module) and
proofs of the specification's claims about it.

The module consists of:
 - `enum ctype` and the parallel name table `ct_type[]` (lines 19-52);
 - `parse_ct_type` (lines 58-67), mapping a name to `i + 1` for the `i`-th
   table entry, `CT_NONE` on no match;
 - the fault routines (`deadlock_splat`, `recursive_loop`, ...) and the
   dispatcher `do_crash` (lines 119-196);
 - the procfs handlers `procfs_read` (lines 198-205) and `procfs_write`
   (lines 207-225).

Hardware-level side effects (panics, traps, lockups, memory corruption) are
embedded as a descriptive effect algebra; the control flow (bounds checks,
string handling, dispatch, return values) is embedded faithfully.
-/

namespace Crashtest

/-- The `enum ctype` of crashtest.c lines 19-35, in declaration order;
`CT_NONE` has value 0, `CT_PANIC` value 1, ..., `CT_DEADLOCK` value 14. -/
inductive ctype where
  | CT_NONE
  | CT_PANIC
  | CT_BUG
  | CT_EXCEPTION
  | CT_LOOP
  | CT_OVERFLOW
  | CT_CORRUPT_STACK
  | CT_UNALIGNED_LOAD_STORE_WRITE
  | CT_OVERWRITE_ALLOCATION
  | CT_WRITE_AFTER_FREE
  | CT_SOFTLOCKUP
  | CT_HARDLOCKUP
  | CT_HUNG_TASK
  | CT_SCHEDULING_WHILE_ATOMIC
  | CT_DEADLOCK
deriving DecidableEq, Repr

/-- The numeric value of each `enum ctype` member, as assigned by C
(declaration order starting at 0). -/
def ctype.toNat : ctype → Nat
  | .CT_NONE => 0
  | .CT_PANIC => 1
  | .CT_BUG => 2
  | .CT_EXCEPTION => 3
  | .CT_LOOP => 4
  | .CT_OVERFLOW => 5
  | .CT_CORRUPT_STACK => 6
  | .CT_UNALIGNED_LOAD_STORE_WRITE => 7
  | .CT_OVERWRITE_ALLOCATION => 8
  | .CT_WRITE_AFTER_FREE => 9
  | .CT_SOFTLOCKUP => 10
  | .CT_HARDLOCKUP => 11
  | .CT_HUNG_TASK => 12
  | .CT_SCHEDULING_WHILE_ATOMIC => 13
  | .CT_DEADLOCK => 14

/-- The `enum ctype` member with a given numeric value (the conversion C
performs implicitly when `parse_ct_type` returns the integer `i + 1`).
Values outside 0..14 never arise in the module. -/
def ctype.fromNat : Nat → ctype
  | 1 => .CT_PANIC
  | 2 => .CT_BUG
  | 3 => .CT_EXCEPTION
  | 4 => .CT_LOOP
  | 5 => .CT_OVERFLOW
  | 6 => .CT_CORRUPT_STACK
  | 7 => .CT_UNALIGNED_LOAD_STORE_WRITE
  | 8 => .CT_OVERWRITE_ALLOCATION
  | 9 => .CT_WRITE_AFTER_FREE
  | 10 => .CT_SOFTLOCKUP
  | 11 => .CT_HARDLOCKUP
  | 12 => .CT_HUNG_TASK
  | 13 => .CT_SCHEDULING_WHILE_ATOMIC
  | 14 => .CT_DEADLOCK
  | _ => .CT_NONE

/-- The name table `ct_type[]` of crashtest.c lines 37-52, in declaration
order. -/
def ct_type : List String :=
  [ "PANIC"
  , "BUG"
  , "EXCEPTION"
  , "LOOP"
  , "OVERFLOW"
  , "CORRUPT_STACK"
  , "UNALIGNED_LOAD_STORE_WRITE"
  , "OVERWRITE_ALLOCATION"
  , "WRITE_AFTER_FREE"
  , "SOFTLOCKUP"
  , "HARDLOCKUP"
  , "HUNG_TASK"
  , "SCHEDULING_WHILE_ATOMIC"
  , "DEADLOCK"
  ]

/-- The loop body of `parse_ct_type` (crashtest.c lines 62-65): scan the
remaining table entries starting at index `i`; on the first exact match
(`strcmp == 0`) return the enum with value `i + 1`. -/
def parse_ct_type_from (what : String) : List String → Nat → ctype
  | [], _ => .CT_NONE
  | t :: rest, i =>
      if what = t then ctype.fromNat (i + 1)
      else parse_ct_type_from what rest (i + 1)

/-- `parse_ct_type` (crashtest.c lines 58-67): exact, case-sensitive lookup
of `what` in `ct_type[]`; returns `i + 1` for table index `i`, else
`CT_NONE`. -/
def parse_ct_type (what : String) : ctype :=
  parse_ct_type_from what ct_type 0

/-- The kernel's `isspace` predicate on the characters `strim` removes:
the bytes its `_ctype` table marks `_S` — tab, newline, vertical tab, form
feed, carriage return, space, and byte 0xA0. -/
def isspace (c : Char) : Bool :=
  c = ' ' || c = '\t' || c = '\n' || c = '\x0b' || c = '\x0c' || c = '\r'
    || c = '\xa0'

/-- The outcome of the kernel's `strim`: it trims trailing whitespace in
place (by writing a NUL over it), and returns a pointer past the leading
whitespace. `buffer` is the in-place result; `returned` is the string at
the returned pointer. -/
structure StrimResult where
  buffer : List Char
  returned : List Char
deriving DecidableEq, Repr

/-- The kernel's `strim` as called in `procfs_write` (crashtest.c
line 219). The call there discards the returned pointer, so only the
in-place trailing trim (`buffer`) is visible to the subsequent parse:
leading whitespace survives in the parsed buffer. -/
def strim (s : List Char) : StrimResult :=
  let trimmed := (s.reverse.dropWhile isspace).reverse
  { buffer := trimmed, returned := trimmed.dropWhile isspace }

/-- The `parse` operation of the spec, as the trigger path actually
implements it (crashtest.c lines 219 and 222): `strim(buf)` with the
returned pointer discarded — so only trailing whitespace is removed — then
`parse_ct_type` on the buffer. -/
def parse (input : String) : ctype :=
  parse_ct_type (String.mk (strim input.data).buffer)

/-- The two spinlocks of `deadlock_splat` (crashtest.c lines 83-84). -/
inductive SpinLock where
  | lock1
  | lock2
deriving DecidableEq, Repr

/-- A single spinlock operation. -/
inductive LockOp where
  | spin_lock (l : SpinLock)
  | spin_unlock (l : SpinLock)
deriving DecidableEq, Repr

/-- `deadlock_splat` (crashtest.c lines 81-97) as its sequence of lock
operations: lock1 → lock2 fully released, then lock2 → lock1 fully
released, all within one sequential call. -/
def deadlock_splat : List LockOp :=
  [ .spin_lock .lock1
  , .spin_lock .lock2
  , .spin_unlock .lock2
  , .spin_unlock .lock1
  , .spin_lock .lock2
  , .spin_lock .lock1
  , .spin_unlock .lock1
  , .spin_unlock .lock2
  ]

/-- Single-threaded spinlock semantics: run a sequence of lock operations
against the set of locks currently held. Acquiring a lock already held
self-deadlocks (`none`, control never returns); releasing a lock not held
is invalid (`none`). `some held` means the sequence completes and control
returns with `held` still held. -/
def runLocks : List LockOp → List SpinLock → Option (List SpinLock)
  | [], held => some held
  | .spin_lock l :: ops, held =>
      if l ∈ held then none else runLocks ops (l :: held)
  | .spin_unlock l :: ops, held =>
      if l ∈ held then runLocks ops (held.erase l) else none

/-- `memset(buf, b, len)`: a buffer of `len` bytes all equal to `b`. -/
def memset (len : Nat) (b : Nat) : List Nat :=
  List.replicate len b

/-- `BUFSIZE` (crashtest.c line 99): `THREAD_SIZE / 8`, the size of the
local buffer each `recursive_loop` frame fills. -/
def BUFSIZE (THREAD_SIZE : Nat) : Nat :=
  THREAD_SIZE / 8

/-- `recursive_loop` (crashtest.c lines 101-112), fuelled. `recur_count` is
the value of the `static int recur_count` at entry (initially 40; the static
is decremented and never reset). Each frame fills a `BUFSIZE`-byte local
buffer with `0xff`, decrements the counter, returns when it hits exactly 0
and recurses otherwise. The result is `some (frames, rc)` — the per-frame
buffers and the final counter value — when the recursion terminates within
`fuel` frames, and `none` otherwise. -/
def recursive_loop (bufsize : Nat) : Int → Nat → Option (List (List Nat) × Int)
  | _, 0 => none
  | recur_count, fuel + 1 =>
      let buf := memset bufsize 0xff
      let rc := recur_count - 1
      if rc = 0 then some ([buf], rc)
      else (recursive_loop bufsize rc fuel).map (fun r => (buf :: r.1, r.2))

/-- `kmalloc(len, GFP_KERNEL)`: a fresh heap buffer of `len` bytes. -/
def kmalloc (len : Nat) : List Nat :=
  List.replicate len 0

/-- A word store `data[idx] = val` through an `unsigned long *` into a byte
buffer, guarded by the true allocation bound: the write touches bytes
`idx * w` through `idx * w + w - 1` and fails (`none`) when they are not all
inside the buffer. `w` is `sizeof(unsigned long)`. -/
def store_word (buf : List Nat) (idx w val : Nat) : Option (List Nat) :=
  if (idx + 1) * w ≤ buf.length then
    some ((List.range w).foldl (fun b j => b.set (idx * w + j) (val / 256 ^ j % 256)) buf)
  else
    none

/-- The `CT_OVERWRITE_ALLOCATION` body (crashtest.c lines 155-162):
`kmalloc` 1020 bytes, store the word `0x12345678` at element index
`1024 / sizeof(unsigned long)`, `kfree` the buffer. `write_result` is the
guarded store's outcome; `freed` records the unconditional `kfree`. -/
structure OverwriteRun where
  alloc_len : Nat
  write_result : Option (List Nat)
  freed : Bool
deriving DecidableEq, Repr

/-- The `CT_OVERWRITE_ALLOCATION` case of `do_crash`, parametrized by
`sizeof(unsigned long)` (8 on 64-bit hosts, 4 on 32-bit ones). -/
def overwrite_allocation (sizeof_ulong : Nat) : OverwriteRun :=
  let len := 1020
  let data := kmalloc len
  { alloc_len := len
  , write_result := store_word data (1024 / sizeof_ulong) sizeof_ulong 0x12345678
  , freed := true }

/-- The observable actions of the fault bodies in `do_crash`
(crashtest.c lines 119-196), one constructor per primitive, carrying the
constants of the source. -/
inductive FaultEffect where
  | panic_msg (msg : String)
  | bug_abort
  | null_write
  | busy_loop
  | recursion (initial_count : Nat)
  | stack_write (nbytes : Nat) (buflen : Nat)
  | unaligned_write (width : Nat) (offset : Nat)
  | heap_oob_write (alloc_len : Nat) (byte_off : Nat)
  | uaf_write (len : Nat)
  | preempt_off
  | irq_off
  | task_uninterruptible
  | sleep_in_atomic
  | lock_ops (ops : List LockOp)
deriving DecidableEq, Repr

/-- The behaviour of one `do_crash` case: the effects its body performs, and
whether the C control flow reaches the end of the `switch` and returns to
the caller (`false` for `panic`/`BUG` which do not return, for the traps,
for the unbounded loops, and for the never-woken uninterruptible sleep). -/
structure FaultBody where
  effects : List FaultEffect
  returns : Bool
deriving DecidableEq, Repr

/-- `do_crash` (crashtest.c lines 119-196): dispatch on the parsed kind.
`CT_NONE` and the `default` arm fall through to `break`: no effect, normal
return. -/
def do_crash : ctype → FaultBody
  | .CT_PANIC => ⟨[.panic_msg "have a nice day... ;-)"], false⟩
  | .CT_BUG => ⟨[.bug_abort], false⟩
  | .CT_EXCEPTION => ⟨[.null_write], false⟩
  | .CT_LOOP => ⟨[.busy_loop], false⟩
  | .CT_OVERFLOW => ⟨[.recursion 40], true⟩
  | .CT_CORRUPT_STACK => ⟨[.stack_write 64 8], true⟩
  | .CT_UNALIGNED_LOAD_STORE_WRITE => ⟨[.unaligned_write 4 1], true⟩
  | .CT_OVERWRITE_ALLOCATION => ⟨[.heap_oob_write 1020 1024], true⟩
  | .CT_WRITE_AFTER_FREE => ⟨[.uaf_write 1024], true⟩
  | .CT_SOFTLOCKUP => ⟨[.preempt_off, .busy_loop], false⟩
  | .CT_HARDLOCKUP => ⟨[.irq_off, .busy_loop], false⟩
  | .CT_HUNG_TASK => ⟨[.task_uninterruptible], false⟩
  | .CT_SCHEDULING_WHILE_ATOMIC => ⟨[.sleep_in_atomic], true⟩
  | .CT_DEADLOCK => ⟨[.lock_ops deadlock_splat], true⟩
  | .CT_NONE => ⟨[], true⟩

/-- `procfs_read` (crashtest.c lines 198-205): emit every `ct_type[]` entry
followed by a newline, in table order. -/
def procfs_read : String :=
  ct_type.foldl (fun m s => m ++ s ++ "\n") ""

/-- Linux errno value `E2BIG` (argument list too long). -/
def E2BIG : Int := 7

/-- Linux errno value `EFAULT` (bad address). -/
def EFAULT : Int := 14

/-- The C string held in `buf` after `copy_from_user` and the explicit
NUL-termination `buf[count] = 0` (crashtest.c lines 210-218): since `buf`
starts zero-filled, the string is the payload up to its first NUL byte. -/
def cstring (bytes : List Char) : List Char :=
  bytes.takeWhile (fun c => c ≠ '\x00')

/-- The outcome of one `procfs_write` call: `ret = some r` when control
returns to the caller with value `r`, `none` when the dispatched fault body
never returns; `dispatched = some k` records that `do_crash` was invoked
with kind `k`. -/
structure WriteResult where
  ret : Option Int
  dispatched : Option ctype
deriving DecidableEq, Repr

/-- `procfs_write` (crashtest.c lines 207-225), with the user payload as the
`count` bytes `ubuf` and `copy_ok` modelling whether `copy_from_user`
succeeds: reject payloads over `sizeof(buf) - 1 = 31` bytes with `-E2BIG`,
report `-EFAULT` on a failed copy, otherwise NUL-terminate, `strim` (return
value discarded, so only trailing whitespace is removed), parse and
dispatch, returning `count` if the fault body returns. -/
def procfs_write (ubuf : List Char) (copy_ok : Bool) : WriteResult :=
  if ubuf.length > 32 - 1 then { ret := some (-E2BIG), dispatched := none }
  else if copy_ok = false then { ret := some (-EFAULT), dispatched := none }
  else
    let kind := parse_ct_type (String.mk (strim (cstring ubuf)).buffer)
    { ret := if (do_crash kind).returns then some (ubuf.length : Int) else none
    , dispatched := some kind }

theorem parse_ct_type_from_not_mem (what : String) :
    ∀ (l : List String) (i : Nat), what ∉ l →
      parse_ct_type_from what l i = ctype.CT_NONE
  | [], _, _ => rfl
  | t :: rest, i, h => by
      simp only [List.mem_cons, not_or] at h
      rw [parse_ct_type_from, if_neg h.1]
      exact parse_ct_type_from_not_mem what rest (i + 1) h.2

/-- C1: for every position `i` of the `ct_type` table, `parse_ct_type`
applied to the name at position `i` returns the enum member with numeric
value `i + 1` (`CT_PANIC` for the first entry through `CT_DEADLOCK` for the
last), under exact, case-sensitive comparison. -/
theorem parse_right_inverse_of_catalog :
    ∀ i : Fin ct_type.length,
      parse_ct_type (ct_type.get i) = ctype.fromNat (i.val + 1) ∧
      (parse_ct_type (ct_type.get i)).toNat = i.val + 1 := by
  decide

/-- C3: `parse_ct_type` on any string that matches no catalog name returns
the `CT_NONE` sentinel, and `CT_NONE` is not an error: dispatching it runs
no fault body and control returns normally. -/
theorem parse_unrecognized_is_none :
    ∀ s : String, s ∉ ct_type →
      parse_ct_type s = ctype.CT_NONE ∧
      (do_crash (parse_ct_type s)).effects = [] ∧
      (do_crash (parse_ct_type s)).returns = true :=
  fun s h => by
    have hp : parse_ct_type s = ctype.CT_NONE :=
      parse_ct_type_from_not_mem s ct_type 0 h
    rw [hp]
    exact ⟨rfl, rfl, rfl⟩

/-- C3 witness: the concrete non-catalog inputs named by the spec, "BOGUS"
and the empty string, both parse to `CT_NONE` and dispatch as no-ops. -/
theorem parse_unrecognized_is_none_witness :
    (parse_ct_type "BOGUS" = ctype.CT_NONE ∧
     (do_crash (parse_ct_type "BOGUS")).effects = [] ∧
     (do_crash (parse_ct_type "BOGUS")).returns = true) ∧
    (parse_ct_type "" = ctype.CT_NONE ∧
     (do_crash (parse_ct_type "")).effects = [] ∧
     (do_crash (parse_ct_type "")).returns = true) :=
  ⟨parse_unrecognized_is_none "BOGUS" (by decide),
   parse_unrecognized_is_none "" (by decide)⟩

/-- C5 counterexample: the trigger path does NOT trim surrounding
whitespace. `procfs_write` discards `strim`'s return value (crashtest.c
line 219), so leading whitespace survives into the lookup: the payload
" PANIC" parses to `CT_NONE`, not to `CT_PANIC` as it would if surrounding
whitespace were trimmed before the lookup. -/
theorem parse_leading_whitespace_not_trimmed :
    parse " PANIC" = ctype.CT_NONE ∧
    parse "PANIC" = ctype.CT_PANIC ∧
    parse " PANIC" ≠ parse "PANIC" := by
  refine ⟨by decide, by decide, by decide⟩

/-- C5 (amended): the trigger path strips trailing whitespace — in
particular a trailing line terminator — before the case-sensitive catalog
lookup, but leaves leading whitespace in place (the `strim` return value is
discarded): for every catalog name `n`, parsing `n` with a trailing newline
yields the same kind as parsing `n` itself, the direct catalog lookup of
`n`. -/
theorem parse_newline_tolerant :
    ∀ n : String, n ∈ ct_type →
      parse (n ++ "\n") = parse n ∧ parse n = parse_ct_type n := by
  decide

/-- C5 witness: the spec's concrete instance, `parse "PANIC\n" = parse
"PANIC"`. -/
theorem parse_newline_tolerant_witness :
    parse ("PANIC" ++ "\n") = parse "PANIC" ∧
    parse "PANIC" = parse_ct_type "PANIC" :=
  parse_newline_tolerant "PANIC" (by decide)

/-- C2: every trigger payload longer than `sizeof(buf) - 1 = 31` bytes is
rejected with `-E2BIG` and `do_crash` is never invoked, so no fault routine
runs and the observable state is unchanged. -/
theorem oversized_write_rejected :
    ∀ (ubuf : List Char) (copy_ok : Bool), 31 < ubuf.length →
      procfs_write ubuf copy_ok =
        { ret := some (-E2BIG), dispatched := none } := by
  intro ubuf copy_ok h
  have hc : ubuf.length > 32 - 1 := by omega
  simp only [procfs_write, if_pos hc]

/-- C2 witness: a concrete 40-byte payload is rejected with `-E2BIG` and
nothing is dispatched. -/
theorem oversized_write_rejected_witness :
    procfs_write (List.replicate 40 'A') true =
      { ret := some (-E2BIG), dispatched := none } :=
  oversized_write_rejected (List.replicate 40 'A') true (by decide)

/-- C4: `do_crash CT_NONE` is a true no-op: it performs no effect and
control returns normally to the caller. -/
theorem do_crash_none_noop :
    do_crash ctype.CT_NONE = { effects := [], returns := true } :=
  rfl

set_option maxRecDepth 4000 in
/-- C6: `procfs_read` always produces the one fixed, non-empty string: the
14 registered names, one per line, each terminated by a newline, in table
declaration order with `PANIC` first and `DEADLOCK` last. (It is a constant
of the embedding, so repeated reads within a process lifetime agree by
definition.) -/
theorem procfs_read_fixed_list :
    procfs_read =
      "PANIC\nBUG\nEXCEPTION\nLOOP\nOVERFLOW\nCORRUPT_STACK\nUNALIGNED_LOAD_STORE_WRITE\nOVERWRITE_ALLOCATION\nWRITE_AFTER_FREE\nSOFTLOCKUP\nHARDLOCKUP\nHUNG_TASK\nSCHEDULING_WHILE_ATOMIC\nDEADLOCK\n" ∧
    procfs_read ≠ "" ∧
    ct_type.length = 14 ∧
    ct_type.head? = some "PANIC" ∧
    ct_type.getLast? = some "DEADLOCK" ∧
    procfs_read = String.join (ct_type.map (fun s => s ++ "\n")) := by
  refine ⟨by decide, by decide, by decide, by decide, by decide, by decide⟩

/-- C8: `deadlock_splat` is exactly the sequence lock1, lock2, unlock2,
unlock1, lock2, lock1, unlock1, unlock2, and running that sequence
single-threaded from no locks held completes with no locks held — the call
returns normally and does not hang in isolation. -/
theorem deadlock_splat_sequence_returns :
    deadlock_splat =
      [ .spin_lock .lock1, .spin_lock .lock2
      , .spin_unlock .lock2, .spin_unlock .lock1
      , .spin_lock .lock2, .spin_lock .lock1
      , .spin_unlock .lock1, .spin_unlock .lock2 ] ∧
    runLocks deadlock_splat [] = some [] := by
  refine ⟨rfl, by decide⟩

/-- C9: the `CT_OVERWRITE_ALLOCATION` body allocates 1020 bytes and stores
a word at element index `1024 / sizeof(unsigned long)` — byte offset 1024,
strictly past the 1020-byte allocation — so the guarded store fails
(out-of-bounds write); the buffer is then freed. Holds for any word size
dividing 1024 (8 on 64-bit, 4 on 32-bit). -/
theorem overwrite_allocation_oob :
    ∀ w : Nat, 0 < w → w ∣ 1024 →
      (overwrite_allocation w).alloc_len = 1020 ∧
      (1024 / w) * w = 1024 ∧
      1020 < (1024 / w) * w ∧
      (overwrite_allocation w).write_result = none ∧
      (overwrite_allocation w).freed = true := by
  intro w hw hd
  have hoff : (1024 / w) * w = 1024 := Nat.div_mul_cancel hd
  have hlen : (kmalloc 1020).length = 1020 := by
    simp only [kmalloc, List.length_replicate]
  have hcond : ¬ ((1024 / w + 1) * w ≤ (kmalloc 1020).length) := by
    rw [hlen, Nat.add_mul, one_mul, hoff]
    omega
  refine ⟨rfl, hoff, by omega, ?_, rfl⟩
  simp only [overwrite_allocation, store_word, if_neg hcond]

/-- C9 witness: with the 64-bit word size `sizeof(unsigned long) = 8`, the
store targets byte offset 1024 of the 1020-byte buffer and fails. -/
theorem overwrite_allocation_oob_witness :
    (overwrite_allocation 8).alloc_len = 1020 ∧
    (1024 / 8) * 8 = 1024 ∧
    1020 < (1024 / 8) * 8 ∧
    (overwrite_allocation 8).write_result = none ∧
    (overwrite_allocation 8).freed = true :=
  overwrite_allocation_oob 8 (by decide) (by decide)

/-- C10: for every payload of at most 31 bytes that copies successfully and
parses to a kind whose body returns normally (`CT_NONE` — including every
unrecognized identifier — and `CT_DEADLOCK`), `procfs_write` returns exactly
the payload length; and whenever `procfs_write` returns at all, its result
is `-E2BIG`, `-EFAULT`, or the full payload length. -/
theorem procfs_write_returns_count :
    (∀ ubuf : List Char, ubuf.length ≤ 31 →
      (parse_ct_type (String.mk (strim (cstring ubuf)).buffer) = ctype.CT_NONE ∨
       parse_ct_type (String.mk (strim (cstring ubuf)).buffer) = ctype.CT_DEADLOCK) →
      (procfs_write ubuf true).ret = some (ubuf.length : Int)) ∧
    (do_crash ctype.CT_NONE).returns = true ∧
    (do_crash ctype.CT_DEADLOCK).returns = true ∧
    (∀ (ubuf : List Char) (copy_ok : Bool) (r : Int),
      (procfs_write ubuf copy_ok).ret = some r →
      r = -E2BIG ∨ r = -EFAULT ∨ r = (ubuf.length : Int)) := by
  refine ⟨?_, rfl, rfl, ?_⟩
  · intro ubuf h hk
    have hc : ¬ (ubuf.length > 32 - 1) := by omega
    have hw : procfs_write ubuf true =
        { ret := if (do_crash (parse_ct_type (String.mk (strim (cstring ubuf)).buffer))).returns
                 then some (ubuf.length : Int) else none
        , dispatched := some (parse_ct_type (String.mk (strim (cstring ubuf)).buffer)) } := by
      unfold procfs_write
      rw [if_neg hc]
      rfl
    rcases hk with hk | hk <;> rw [hw, hk] <;> rfl
  · intro ubuf copy_ok r h
    by_cases h1 : ubuf.length > 32 - 1
    · simp only [procfs_write, if_pos h1] at h
      left
      exact (Option.some_inj.mp h).symm
    · by_cases h2 : copy_ok = false
      · simp only [procfs_write, if_neg h1, if_pos h2] at h
        right; left
        exact (Option.some_inj.mp h).symm
      · simp only [procfs_write, if_neg h1, if_neg h2] at h
        by_cases h3 :
            (do_crash (parse_ct_type (String.mk (strim (cstring ubuf)).buffer))).returns = true
        · simp only [h3, if_pos rfl] at h
          right; right
          exact (Option.some_inj.mp h).symm
        · simp only [h3] at h
          simp at h

/-- C10 witness: writing the 8-byte payload "DEADLOCK" returns 8. -/
theorem procfs_write_returns_count_witness :
    (procfs_write ("DEADLOCK".data) true).ret = some (("DEADLOCK".data).length : Int) :=
  procfs_write_returns_count.1 ("DEADLOCK".data) (by decide) (by decide)

set_option maxRecDepth 4000 in
/-- C7 counterexample: the recursion counter of `recursive_loop` is a
static initialized to 40 and never reset. The first invocation (counter 40)
terminates after exactly 40 frames and leaves the counter at 0; a second
invocation therefore starts at counter 0, decrements past zero, and does
not terminate after 40 frames (it is still running at a 100-frame budget),
refuting "each invocation terminates after exactly 40 recursive frames"
(here with `THREAD_SIZE = 16384`). -/
theorem recursive_loop_second_invocation_not_bounded :
    recursive_loop (BUFSIZE 16384) 40 40 =
      some (List.replicate 40 (memset (BUFSIZE 16384) 0xff), 0) ∧
    recursive_loop (BUFSIZE 16384) 0 100 = none := by
  refine ⟨rfl, rfl⟩

/-- C7 (amended): the FIRST invocation of `recursive_loop` — the static
counter at its initial value 40 — terminates after exactly 40 recursive
frames, each frame filling a local buffer of `THREAD_SIZE / 8` bytes with
the sentinel byte `0xff`; the counter, being static, is left at 0 and later
invocations are not bounded by 40. -/
theorem recursive_loop_first_invocation_forty_frames :
    ∀ THREAD_SIZE : Nat,
      recursive_loop (BUFSIZE THREAD_SIZE) 40 40 =
        some (List.replicate 40 (memset (BUFSIZE THREAD_SIZE) 0xff), 0) ∧
      (memset (BUFSIZE THREAD_SIZE) 0xff).length = THREAD_SIZE / 8 ∧
      (∀ b ∈ memset (BUFSIZE THREAD_SIZE) 0xff, b = 0xff) := by
  intro ts
  refine ⟨rfl, by simp [memset, BUFSIZE], ?_⟩
  intro b hb
  exact List.eq_of_mem_replicate hb

end Crashtest
